import Mathlib

/-!
# tracker-edge: `src/main.cpp`

A shallow embedding of the application file of the tracker firmware: the
sensor start/stop helpers, the sleep and wake handlers, the publish
callback `appPublish`, `setup` and the foreground `loop`.

The file talks to collaborators that live outside `main.cpp` (the STS31
driver object `sts31`, the logger `appLogger`, the JSON writer, the fuel
gauge, the uptime counter).  Their answers are inputs of the embedded
functions; their observable effects (driver commands, log lines, message
fields) are recorded in explicit state.

Floating point values are never computed with here: the code only moves a
`float` from a driver into a message or a log line, so a `float` is carried
as its 32-bit pattern.
-/

namespace TrackerEdge

/-! ## Collaborator types -/

/-- Modelled from the spec: the driver's error enumeration is declared in the
missing header `ClosedCube_SHT31D.h`.  The code only compares against the
`NO_ERROR` sentinel (status `Ok`); every other code is a failure (status
`Error`) and is kept with its numeric tag. -/
inductive SHT31D_ErrorCode where
  | NO_ERROR
  | FAILURE (code : Nat)
  deriving DecidableEq, Repr

/-- Modelled from the spec: repeatability settings of the missing driver header. -/
inductive SHT31D_Repeatability where
  | REPEATABILITY_HIGH
  | REPEATABILITY_MEDIUM
  | REPEATABILITY_LOW
  deriving DecidableEq, Repr

/-- Modelled from the spec: sampling frequencies of the missing driver header. -/
inductive SHT31D_Frequency where
  | FREQUENCY_HZ5
  | FREQUENCY_1HZ
  | FREQUENCY_2HZ
  | FREQUENCY_4HZ
  | FREQUENCY_10HZ
  deriving DecidableEq, Repr

/-- A C `float`, carried as its bit pattern. -/
abbrev Float32 := Nat

/-- Modelled from the spec: the value returned by `periodicFetchData`, declared
in the missing driver header: temperature, humidity and an error code. -/
structure SHT31D where
  t : Float32
  rh : Float32
  error : SHT31D_ErrorCode
  deriving DecidableEq, Repr

/-- Modelled from the spec: the operating mode of the sensor, which the missing
driver changes with `periodicStart` (to `Periodic`) and `periodicStop`
(to `Idle`). -/
inductive SensorMode where
  | Idle
  | Periodic
  deriving DecidableEq, Repr

/-- The commands `main.cpp` sends to the driver object `sts31`. -/
inductive DriverCommand where
  | begin (address : Nat)
  | periodicStart (repeatability : SHT31D_Repeatability) (frequency : SHT31D_Frequency)
  | periodicStop
  | periodicFetchData
  deriving DecidableEq, Repr

/-- The lines `main.cpp` writes through `appLogger`: `error(msg)` and
`info(fmt, value)`. -/
inductive LogLine where
  | error (msg : String)
  | info (fmt : String) (value : Float32)
  deriving DecidableEq, Repr

/-- Modelled from the spec: one named numeric field of the outgoing message, as
written by `message.name(n).value(v, precision)` of the missing JSON writer. -/
structure Field where
  name : String
  value : Float32
  precision : Nat
  deriving DecidableEq, Repr

/-- Modelled from the spec: the telemetry message under construction, an ordered
collection of named numeric fields. -/
abbrev JSONWriter := List Field

/-- Modelled from the spec: `message.name(n).value(v, precision)` of the missing
JSON writer appends one field at the end of the message. -/
def JSONWriter.nameValue (message : JSONWriter) (n : String) (v : Float32)
    (precision : Nat) : JSONWriter :=
  message ++ [Field.mk n v precision]

/-- Modelled from the spec: the success code of the missing system header. -/
def SYSTEM_ERROR_NONE : Int := 0

/-- Modelled from the spec: the sleep context of the missing SDK header; the
handlers receive it and never look at it. -/
structure TrackerSleepContext where
  reason : Nat
  deriving DecidableEq, Repr

/-- Modelled from the spec: the location fix of the missing SDK header; the
publish callback receives it and never looks at it. -/
structure LocationPoint where
  fix : Nat
  deriving DecidableEq, Repr

/-! ## Program state -/

/-- The globals of `main.cpp` and the effects it has on its collaborators:
`mode` and `commands` belong to the driver object `sts31`, `log` to
`appLogger`, and `tick` is the file-static counter of `loop`. -/
structure World where
  mode : SensorMode
  commands : List DriverCommand
  log : List LogLine
  tick : Nat
  deriving DecidableEq, Repr

/-- State at boot: the sensor has not been started, nothing was logged, and
`tick` is value-initialised to zero (`static unsigned int tick {}`). -/
def World.boot : World :=
  World.mk SensorMode.Idle [] [] 0

/-- Modelled from the spec: `sts31.begin(address)`; records the command. -/
def World.begin (w : World) (address : Nat) : World :=
  World.mk w.mode (w.commands ++ [DriverCommand.begin address]) w.log w.tick

/-- Modelled from the spec: `sts31.periodicStart(r, f)`; the sensor is commanded
into `Periodic` mode. -/
def World.periodicStart (w : World) (r : SHT31D_Repeatability) (f : SHT31D_Frequency) :
    World :=
  World.mk SensorMode.Periodic (w.commands ++ [DriverCommand.periodicStart r f]) w.log w.tick

/-- Modelled from the spec: `sts31.periodicStop()`; the sensor is commanded into
`Idle` mode. -/
def World.periodicStop (w : World) : World :=
  World.mk SensorMode.Idle (w.commands ++ [DriverCommand.periodicStop]) w.log w.tick

/-- Modelled from the spec: `sts31.periodicFetchData()`; the mode is left alone. -/
def World.periodicFetchData (w : World) : World :=
  World.mk w.mode (w.commands ++ [DriverCommand.periodicFetchData]) w.log w.tick

/-- Appending a line through `appLogger`. -/
def World.logLine (w : World) (l : LogLine) : World :=
  World.mk w.mode w.commands (w.log ++ [l]) w.tick

/-- Storing a new value in `tick`. -/
def World.setTick (w : World) (t : Nat) : World :=
  World.mk w.mode w.commands w.log t

/-! ## Machine arithmetic -/

/-- Width of `unsigned int` on the target. -/
def UINT_MOD : Nat := 4294967296

/-- Subtraction of two `unsigned int` values. -/
def usub (a b : Nat) : Nat :=
  (a % UINT_MOD + UINT_MOD - b % UINT_MOD) % UINT_MOD

/-! ## The functions of `main.cpp` -/

/-- `startSts31` (lines 44-51).  `ret` is what the driver answers to
`periodicStart`. -/
def startSts31 (ret : SHT31D_ErrorCode) (w : World) : SHT31D_ErrorCode × World :=
  let w1 := w.periodicStart SHT31D_Repeatability.REPEATABILITY_MEDIUM
    SHT31D_Frequency.FREQUENCY_HZ5
  let w2 := if SHT31D_ErrorCode.NO_ERROR ≠ ret then
      w1.logLine (LogLine.error "STS31 sensor setup failure")
    else w1
  (ret, w2)

/-- `stopSts31` (lines 53-55).  `ret` is what the driver answers to
`periodicStop`. -/
def stopSts31 (ret : SHT31D_ErrorCode) (w : World) : SHT31D_ErrorCode × World :=
  (ret, w.periodicStop)

/-- `appSleep` (lines 57-60): the result of `stopSts31` is dropped. -/
def appSleep (_context : TrackerSleepContext) (ret : SHT31D_ErrorCode) (w : World) : World :=
  (stopSts31 ret w).2

/-- `appWake` (lines 62-65): the result of `startSts31` is dropped. -/
def appWake (_context : TrackerSleepContext) (ret : SHT31D_ErrorCode) (w : World) : World :=
  (startSts31 ret w).2

/-- `appPublish` (lines 67-77).  `temp` is what the driver answers to
`periodicFetchData`, `voltage` is what the fuel gauge answers to `getVCell`.
Returns the result code, the message and the state. -/
def appPublish (message : JSONWriter) (_point : LocationPoint) (_context : Nat)
    (temp : SHT31D) (voltage : Float32) (w : World) : Int × JSONWriter × World :=
  let w1 := w.periodicFetchData
  let m1 := if SHT31D_ErrorCode.NO_ERROR ≠ temp.error then
      message.nameValue "c_temp" temp.t 1
    else message
  let m2 := m1.nameValue "vbatt" voltage 3
  (SYSTEM_ERROR_NONE, m2, w1)

/-- The part of `setup` (lines 80-115) that touches the sensor: `begin` at
the board's I2C address, then `startSts31`.  The power configuration, the
serial wait, the SDK initialisation, the button and the registrations act
on other collaborators. -/
def setup (address : Nat) (ret : SHT31D_ErrorCode) (w : World) : World :=
  (startSts31 ret (w.begin address)).2

/-- `loop` (lines 119-130).  `uptime1` and `uptime2` are the two values read
from `System.uptime()` (in the test and in the assignment), `temp` is what
the driver answers when a sample is fetched.  `Tracker::instance().loop()`
acts on other collaborators. -/
def loop (uptime1 uptime2 : Nat) (temp : SHT31D) (w : World) : World :=
  if usub uptime1 w.tick > 10 then
    let w1 := w.setTick (uptime2 % UINT_MOD)
    let w2 := w1.periodicFetchData
    if SHT31D_ErrorCode.NO_ERROR ≠ temp.error then
      w2.logLine (LogLine.info "Temperature = %0.1f" temp.t)
    else w2
  else w

/-! ## Drivers for sequences of calls -/

/-- Fields present in `out` after the first `message.length` ones: what a
call that received `message` and produced `out` has added. -/
def appended (message out : JSONWriter) : JSONWriter :=
  out.drop message.length

/-- One call made by the SDK at a power transition, with the driver's answer. -/
inductive LifecycleCall where
  | sleep (context : TrackerSleepContext) (ret : SHT31D_ErrorCode)
  | wake (context : TrackerSleepContext) (ret : SHT31D_ErrorCode)
  deriving DecidableEq, Repr

/-- Whether the call is an `appSleep` call. -/
def LifecycleCall.isSleep : LifecycleCall → Bool
  | LifecycleCall.sleep _ _ => true
  | LifecycleCall.wake _ _ => false

/-- Running the handler the call names. -/
def LifecycleCall.run (w : World) : LifecycleCall → World
  | LifecycleCall.sleep context ret => appSleep context ret w
  | LifecycleCall.wake context ret => appWake context ret w

/-- Running a sequence of handler calls, first call first. -/
def runLifecycle (calls : List LifecycleCall) (w : World) : World :=
  calls.foldl LifecycleCall.run w

/-- One iteration of `loop` at uptime `p.1`, the driver answering `p.2` if a
sample is fetched. -/
def pollStep (w : World) (p : Nat × SHT31D) : World :=
  loop p.1 p.1 p.2 w

/-- Successive iterations of `loop`, first iteration first. -/
def runLoop (w : World) (inputs : List (Nat × SHT31D)) : World :=
  inputs.foldl pollStep w

/-- Whether the iteration fetches a sample (sends a command to the driver). -/
def triggered (w : World) (p : Nat × SHT31D) : Bool :=
  decide ((pollStep w p).commands ≠ w.commands)

/-- Whether the iteration writes to the log. -/
def logged (w : World) (p : Nat × SHT31D) : Bool :=
  decide ((pollStep w p).log ≠ w.log)

/-- Uptimes of the iterations that write to the log, in order. -/
def logUptimes : World → List (Nat × SHT31D) → List Nat
  | _, [] => []
  | w, p :: rest =>
    if logged w p then p.1 :: logUptimes (pollStep w p) rest
    else logUptimes (pollStep w p) rest

/-- Uptimes of the iterations that fetch a sample, in order. -/
def triggerUptimes : World → List (Nat × SHT31D) → List Nat
  | _, [] => []
  | w, p :: rest =>
    if triggered w p then p.1 :: triggerUptimes (pollStep w p) rest
    else triggerUptimes (pollStep w p) rest

/-- The bit pattern of the `float` 23.5. -/
def f23_5 : Float32 := 1102839808

/-- The bit pattern of the `float` 3.7. -/
def f3_7 : Float32 := 1080872141

/-- A reading with status `Ok`. -/
def okReading : SHT31D := SHT31D.mk f23_5 0 SHT31D_ErrorCode.NO_ERROR

/-- A reading with status `Error`. -/
def errReading : SHT31D := SHT31D.mk f23_5 0 (SHT31D_ErrorCode.FAILURE 102)

/-! ## The publish callback -/

/-- What `appPublish` does to the message, spelled out by the status of the
reading. -/
theorem appPublish_message (message : JSONWriter) (point : LocationPoint) (context : Nat)
    (temp : SHT31D) (voltage : Float32) (w : World) :
    (appPublish message point context temp voltage w).2.1 =
      if temp.error = SHT31D_ErrorCode.NO_ERROR then
        message ++ [Field.mk "vbatt" voltage 3]
      else message ++ [Field.mk "c_temp" temp.t 1, Field.mk "vbatt" voltage 3] := by
  unfold appPublish JSONWriter.nameValue
  by_cases h : temp.error = SHT31D_ErrorCode.NO_ERROR
  · simp [h]
  · have h' : SHT31D_ErrorCode.NO_ERROR ≠ temp.error := fun e => h e.symm
    simp [h, h']

theorem appended_append (message added : JSONWriter) :
    appended message (message ++ added) = added := by
  simp [appended]

/-- C1 (evaluation of the code): with a reading of status `Ok` the message
produced by `appPublish` has no `c_temp` field, and with a reading of status
`Error` the temperature is appended as `c_temp`; the test on the status is
the reverse of the one the claim describes. -/
theorem appPublish_c_temp_inverted :
    (appPublish [] (LocationPoint.mk 0) 0 okReading f3_7 World.boot).2.1
        = [Field.mk "vbatt" f3_7 3] ∧
    (appPublish [] (LocationPoint.mk 0) 0 errReading f3_7 World.boot).2.1
        = [Field.mk "c_temp" f23_5 1, Field.mk "vbatt" f3_7 3] := by
  constructor <;> rfl

/-- C2: `appPublish` appends exactly one `vbatt` field holding the fuel-gauge
voltage with three decimals, that field is the last one of the resulting
message, and the appended fields are either `vbatt` alone or `c_temp`
followed by `vbatt`. -/
theorem appPublish_vbatt_last (message : JSONWriter) (point : LocationPoint) (context : Nat)
    (temp : SHT31D) (voltage : Float32) (w : World) :
    (appPublish message point context temp voltage w).2.1 =
        message ++ appended message (appPublish message point context temp voltage w).2.1 ∧
    (appended message (appPublish message point context temp voltage w).2.1).filter
        (fun f => f.name = "vbatt") = [Field.mk "vbatt" voltage 3] ∧
    (appPublish message point context temp voltage w).2.1.getLast?
        = some (Field.mk "vbatt" voltage 3) ∧
    (appended message (appPublish message point context temp voltage w).2.1
        = [Field.mk "vbatt" voltage 3] ∨
     appended message (appPublish message point context temp voltage w).2.1
        = [Field.mk "c_temp" temp.t 1, Field.mk "vbatt" voltage 3]) := by
  rw [appPublish_message]
  by_cases h : temp.error = SHT31D_ErrorCode.NO_ERROR
  · rw [if_pos h, appended_append]
    refine ⟨rfl, ?_, ?_, Or.inl rfl⟩
    · simp
    · simp
  · rw [if_neg h, appended_append]
    refine ⟨rfl, ?_, ?_, Or.inr rfl⟩
    · simp [List.filter]
    · simp [List.getLast?_append]

/-- C3: `appPublish` returns `SYSTEM_ERROR_NONE`, the zero code, on every
input, readings with an error status included. -/
theorem appPublish_returns_none (message : JSONWriter) (point : LocationPoint)
    (context : Nat) (temp : SHT31D) (voltage : Float32) (w : World) :
    (appPublish message point context temp voltage w).1 = SYSTEM_ERROR_NONE ∧
    (appPublish message point context temp voltage w).1 = 0 := by
  constructor <;> rfl

/-- C4: the message after `appPublish` starts with the incoming message,
unchanged and in order, followed by one or two new fields whose names are
`vbatt`, or `c_temp` then `vbatt`. -/
theorem appPublish_append_only (message : JSONWriter) (point : LocationPoint) (context : Nat)
    (temp : SHT31D) (voltage : Float32) (w : World) :
    (appPublish message point context temp voltage w).2.1.take message.length = message ∧
    (∀ i (h : i < message.length),
      (appPublish message point context temp voltage w).2.1.get? i = some (message.get ⟨i, h⟩)) ∧
    (appPublish message point context temp voltage w).2.1.length ≤ message.length + 2 ∧
    ((appPublish message point context temp voltage w).2.1.drop message.length).length ≤ 2 ∧
    (((appPublish message point context temp voltage w).2.1.drop message.length).map Field.name
        = ["vbatt"] ∨
     ((appPublish message point context temp voltage w).2.1.drop message.length).map Field.name
        = ["c_temp", "vbatt"]) := by
  rw [appPublish_message]
  by_cases h : temp.error = SHT31D_ErrorCode.NO_ERROR
  · simp only [h, if_true]
    refine ⟨by simp, ?_, by simp, by simp, Or.inl (by simp)⟩
    intro i hi
    simp [List.getElem?_append_left hi, List.getElem?_eq_getElem hi]
  · simp only [h, if_false]
    refine ⟨by simp, ?_, by simp, by simp, Or.inr (by simp)⟩
    intro i hi
    simp [List.getElem?_append_left hi, List.getElem?_eq_getElem hi]

/-! ## Sensor life cycle -/

/-- C9: `startSts31` sends one `periodicStart` with medium repeatability at
5 Hz, hands back the driver's code, and logs the setup failure exactly when
that code is not `NO_ERROR`; `stopSts31` sends one `periodicStop`, hands back
the driver's code and logs nothing; `appWake` and `appSleep` are these two
with the code dropped, whatever the driver answers. -/
theorem start_stop_contract (context : TrackerSleepContext) (ret : SHT31D_ErrorCode)
    (w : World) :
    (startSts31 ret w).1 = ret ∧
    (startSts31 ret w).2.commands = w.commands ++
      [DriverCommand.periodicStart SHT31D_Repeatability.REPEATABILITY_MEDIUM
        SHT31D_Frequency.FREQUENCY_HZ5] ∧
    (startSts31 ret w).2.log =
      (if ret = SHT31D_ErrorCode.NO_ERROR then w.log
       else w.log ++ [LogLine.error "STS31 sensor setup failure"]) ∧
    ((startSts31 ret w).2.log ≠ w.log ↔ ret ≠ SHT31D_ErrorCode.NO_ERROR) ∧
    (stopSts31 ret w).1 = ret ∧
    (stopSts31 ret w).2.commands = w.commands ++ [DriverCommand.periodicStop] ∧
    (stopSts31 ret w).2.log = w.log ∧
    appWake context ret w = (startSts31 ret w).2 ∧
    appSleep context ret w = (stopSts31 ret w).2 := by
  refine ⟨rfl, ?_, ?_, ?_, rfl, rfl, rfl, rfl, rfl⟩
  · unfold startSts31
    by_cases h : SHT31D_ErrorCode.NO_ERROR = ret <;>
      simp [h, World.periodicStart, World.logLine]
  · unfold startSts31
    by_cases h : ret = SHT31D_ErrorCode.NO_ERROR
    · subst h
      simp [World.periodicStart]
    · have h' : SHT31D_ErrorCode.NO_ERROR ≠ ret := fun e => h e.symm
      simp [h, h', World.periodicStart, World.logLine]
  · unfold startSts31
    by_cases h : ret = SHT31D_ErrorCode.NO_ERROR
    · subst h
      simp [World.periodicStart]
    · have h' : SHT31D_ErrorCode.NO_ERROR ≠ ret := fun e => h e.symm
      simp [h, h', World.periodicStart, World.logLine]

theorem startSts31_mode (ret : SHT31D_ErrorCode) (w : World) :
    (startSts31 ret w).2.mode = SensorMode.Periodic := by
  unfold startSts31
  by_cases h : SHT31D_ErrorCode.NO_ERROR = ret <;>
    simp [h, World.periodicStart, World.logLine]

theorem runLifecycle_snoc (calls : List LifecycleCall) (c : LifecycleCall) (w : World) :
    runLifecycle (calls ++ [c]) w = c.run (runLifecycle calls w) := by
  simp [runLifecycle, List.foldl_append]

theorem run_mode (c : LifecycleCall) (w : World) :
    (c.run w).mode = if c.isSleep then SensorMode.Idle else SensorMode.Periodic := by
  cases c with
  | sleep context ret => rfl
  | wake context ret =>
    simp [LifecycleCall.run, LifecycleCall.isSleep, appWake, startSts31_mode]

/-- C5: after `setup` the sensor mode is `Periodic`, and after any sequence of
`appSleep`/`appWake` calls following `setup` the mode is `Idle` exactly when
the last call of the sequence was `appSleep`, and `Periodic` otherwise. -/
theorem mode_follows_last_call (address : Nat) (ret : SHT31D_ErrorCode) (w : World)
    (calls : List LifecycleCall) :
    (setup address ret w).mode = SensorMode.Periodic ∧
    ((runLifecycle calls (setup address ret w)).mode = SensorMode.Idle ↔
      calls.getLast?.map LifecycleCall.isSleep = some true) ∧
    ((runLifecycle calls (setup address ret w)).mode = SensorMode.Periodic ↔
      calls.getLast?.map LifecycleCall.isSleep ≠ some true) := by
  have hs : (setup address ret w).mode = SensorMode.Periodic := by
    unfold setup
    exact startSts31_mode ret _
  refine ⟨hs, ?_⟩
  induction calls using List.reverseRecOn with
  | nil => simp [runLifecycle, hs]
  | append_singleton calls c _ =>
    rw [runLifecycle_snoc, run_mode]
    cases hc : c.isSleep <;> simp [hc]

/-! ## The foreground poll -/

theorem usub_of_le (a b : Nat) (hb : b ≤ a) (ha : a < UINT_MOD) : usub a b = a - b := by
  unfold usub
  unfold UINT_MOD at *
  omega

theorem loop_fire (u : Nat) (temp : SHT31D) (w : World) (ht : w.tick ≤ u)
    (hu : u < UINT_MOD) (h : w.tick + 10 < u) :
    (loop u u temp w).tick = u ∧
    (loop u u temp w).commands = w.commands ++ [DriverCommand.periodicFetchData] ∧
    (loop u u temp w).log =
      (if temp.error = SHT31D_ErrorCode.NO_ERROR then w.log
       else w.log ++ [LogLine.info "Temperature = %0.1f" temp.t]) := by
  have h1 : usub u w.tick > 10 := by
    rw [usub_of_le u w.tick ht hu]
    omega
  have h2 : u % UINT_MOD = u := Nat.mod_eq_of_lt hu
  unfold loop
  rw [if_pos h1]
  by_cases he : temp.error = SHT31D_ErrorCode.NO_ERROR
  · have he' : ¬ (SHT31D_ErrorCode.NO_ERROR ≠ temp.error) := fun c => c he.symm
    simp [he, World.setTick, World.periodicFetchData, h2]
  · have he' : SHT31D_ErrorCode.NO_ERROR ≠ temp.error := fun e => he e.symm
    simp [he, he', World.setTick, World.periodicFetchData, World.logLine, h2]

theorem loop_idle (u : Nat) (temp : SHT31D) (w : World) (ht : w.tick ≤ u)
    (hu : u < UINT_MOD) (h : u ≤ w.tick + 10) : loop u u temp w = w := by
  have h1 : ¬ (usub u w.tick > 10) := by
    rw [usub_of_le u w.tick ht hu]
    omega
  unfold loop
  rw [if_neg h1]

/-- C6: with the stored tick `t` at most the uptime `u` (both `unsigned int`
values, both reads of the counter in the iteration giving `u`), one
iteration of `loop` fetches a sample and stores `u` in `tick`
exactly when `u - t > 10`; when `u - t ≤ 10` the iteration changes nothing:
no fetch, no log line, `tick` still `t`. -/
theorem loop_rate_limit (u t : Nat) (temp : SHT31D) (w : World) (hw : w.tick = t)
    (ht : t ≤ u) (hu : u < UINT_MOD) :
    (((loop u u temp w).commands = w.commands ++ [DriverCommand.periodicFetchData] ∧
        (loop u u temp w).tick = u) ↔ u - t > 10) ∧
    (u - t ≤ 10 →
      (loop u u temp w).commands = w.commands ∧ (loop u u temp w).log = w.log ∧
        (loop u u temp w).tick = t ∧ loop u u temp w = w) := by
  subst hw
  constructor
  · constructor
    · intro ⟨hc, _⟩
      by_contra hn
      have := loop_idle u temp w ht hu (by omega)
      rw [this] at hc
      simp at hc
    · intro h
      have := loop_fire u temp w ht hu (by omega)
      exact ⟨this.2.1, this.1⟩
  · intro h
    have := loop_idle u temp w ht hu (by omega)
    rw [this]
    exact ⟨rfl, rfl, rfl, rfl⟩

/-- Witness of C6 at the boundary: from `tick = 0`, an iteration at uptime 11
fetches a sample and stores 11 in `tick`. -/
theorem loop_rate_limit_witness :
    (0 ≤ 11 ∧ 11 < UINT_MOD) ∧
    (((loop 11 11 okReading World.boot).commands
          = World.boot.commands ++ [DriverCommand.periodicFetchData] ∧
        (loop 11 11 okReading World.boot).tick = 11) ↔ 11 - 0 > 10) ∧
    (11 - 0 ≤ 10 →
      (loop 11 11 okReading World.boot).commands = World.boot.commands ∧
        (loop 11 11 okReading World.boot).log = World.boot.log ∧
        (loop 11 11 okReading World.boot).tick = 0 ∧
        loop 11 11 okReading World.boot = World.boot) :=
  ⟨by decide, loop_rate_limit 11 0 okReading World.boot rfl (by decide) (by decide)⟩

/-- C7 (evaluation of the code): from `tick = 0` with every fetch answering
status `Ok`, the polls at uptimes 5, 11 and 15 write nothing to the log,
although the poll at 11 fires and stores 11 in `tick`; with fetches
answering status `Error` the poll at 11 does write the temperature line.
The test on the status is the reverse of the one the claim describes. -/
theorem loop_log_inverted :
    (runLoop World.boot [(5, okReading)]).log = [] ∧
    (runLoop World.boot [(5, okReading), (11, okReading)]).log = [] ∧
    (runLoop World.boot [(5, okReading), (11, okReading)]).tick = 11 ∧
    (runLoop World.boot [(5, okReading), (11, okReading)]).commands
      = [DriverCommand.periodicFetchData] ∧
    (runLoop World.boot [(5, okReading), (11, okReading), (15, okReading)]).log = [] ∧
    (runLoop World.boot [(5, errReading), (11, errReading), (15, errReading)]).log
      = [LogLine.info "Temperature = %0.1f" f23_5] := by
  refine ⟨?_, ?_, ?_, ?_, ?_, ?_⟩ <;> decide

theorem pollStep_cases (w : World) (p : Nat × SHT31D) (ht : w.tick ≤ p.1)
    (hu : p.1 < UINT_MOD) :
    (w.tick + 10 < p.1 ∧ (pollStep w p).tick = p.1 ∧ triggered w p = true) ∨
    (p.1 ≤ w.tick + 10 ∧ pollStep w p = w ∧ triggered w p = false ∧ logged w p = false) := by
  by_cases h : w.tick + 10 < p.1
  · left
    have hf := loop_fire p.1 p.2 w ht hu h
    refine ⟨h, hf.1, ?_⟩
    simp [triggered, pollStep, hf.2.1]
  · right
    have hi := loop_idle p.1 p.2 w ht hu (by omega)
    refine ⟨by omega, hi, ?_, ?_⟩
    · simp [triggered, pollStep, hi]
    · simp [logged, pollStep, hi]

theorem logged_triggered (w : World) (p : Nat × SHT31D) (ht : w.tick ≤ p.1)
    (hu : p.1 < UINT_MOD) (hl : logged w p = true) : w.tick + 10 < p.1 := by
  rcases pollStep_cases w p ht hu with h | h
  · exact h.1
  · rw [h.2.2.2] at hl
    exact absurd hl (by decide)

theorem pollStep_tick_le (w : World) (p : Nat × SHT31D) (ht : w.tick ≤ p.1)
    (hu : p.1 < UINT_MOD) : w.tick ≤ (pollStep w p).tick ∧ (pollStep w p).tick ≤ p.1 := by
  rcases pollStep_cases w p ht hu with h | h
  · rw [h.2.1]
    omega
  · rw [h.2.1]
    omega

theorem logUptimes_gt (inputs : List (Nat × SHT31D)) :
    ∀ w : World, (∀ p ∈ inputs, w.tick ≤ p.1 ∧ p.1 < UINT_MOD) →
      (inputs.map Prod.fst).Pairwise (fun a b => a ≤ b) →
      ∀ x ∈ logUptimes w inputs, w.tick + 10 < x := by
  induction inputs with
  | nil => intro w _ _ x hx; simp [logUptimes] at hx
  | cons p rest ih =>
    intro w hb hs x hx
    have hp := hb p (List.mem_cons_self _ _)
    rw [List.map_cons, List.pairwise_cons] at hs
    have hstep := pollStep_tick_le w p hp.1 hp.2
    have hb' : ∀ q ∈ rest, (pollStep w p).tick ≤ q.1 ∧ q.1 < UINT_MOD := by
      intro q hq
      have h1 := hs.1 q.1 (List.mem_map_of_mem Prod.fst hq)
      have h2 := hb q (List.mem_cons_of_mem _ hq)
      exact ⟨by omega, h2.2⟩
    have hrest := ih (pollStep w p) hb' hs.2
    unfold logUptimes at hx
    by_cases hl : logged w p = true
    · rw [if_pos hl] at hx
      rcases List.mem_cons.mp hx with hx | hx
      · rw [hx]
        exact logged_triggered w p hp.1 hp.2 hl
      · have := hrest x hx
        omega
    · rw [if_neg hl] at hx
      have := hrest x hx
      omega

theorem logUptimes_pairwise (inputs : List (Nat × SHT31D)) :
    ∀ w : World, (∀ p ∈ inputs, w.tick ≤ p.1 ∧ p.1 < UINT_MOD) →
      (inputs.map Prod.fst).Pairwise (fun a b => a ≤ b) →
      (logUptimes w inputs).Pairwise (fun a b => a + 10 < b) := by
  induction inputs with
  | nil => intro w _ _; simp [logUptimes]
  | cons p rest ih =>
    intro w hb hs
    have hp := hb p (List.mem_cons_self _ _)
    rw [List.map_cons, List.pairwise_cons] at hs
    have hstep := pollStep_tick_le w p hp.1 hp.2
    have hb' : ∀ q ∈ rest, (pollStep w p).tick ≤ q.1 ∧ q.1 < UINT_MOD := by
      intro q hq
      have h1 := hs.1 q.1 (List.mem_map_of_mem Prod.fst hq)
      have h2 := hb q (List.mem_cons_of_mem _ hq)
      exact ⟨by omega, h2.2⟩
    have hrest := ih (pollStep w p) hb' hs.2
    unfold logUptimes
    by_cases hl : logged w p = true
    · rw [if_pos hl, List.pairwise_cons]
      refine ⟨?_, hrest⟩
      intro x hx
      have hfire := logged_triggered w p hp.1 hp.2 hl
      rcases pollStep_cases w p hp.1 hp.2 with h | h
      · have := logUptimes_gt rest (pollStep w p) hb' hs.2 x hx
        rw [h.2.1] at this
        exact this
      · omega
    · rw [if_neg hl]
      exact hrest

/-- C8: feeding `loop` a non-decreasing sequence of `unsigned int` uptimes
from `tick = 0`, whatever the sensor answers, any two iterations that write
a log line have uptimes more than 10 apart: the uptimes of the logging
iterations, in order, are pairwise separated by more than 10. -/
theorem log_lines_spaced (w : World) (inputs : List (Nat × SHT31D)) (h0 : w.tick = 0)
    (hu : ∀ p ∈ inputs, p.1 < UINT_MOD)
    (hs : (inputs.map Prod.fst).Pairwise (fun a b => a ≤ b)) :
    (logUptimes w inputs).Pairwise (fun a b => a + 10 < b) ∧
    (∀ a b : Nat, [a, b].Sublist (logUptimes w inputs) → b - a > 10) := by
  have hp : (logUptimes w inputs).Pairwise (fun a b => a + 10 < b) :=
    logUptimes_pairwise inputs w (fun p hp => ⟨by omega, hu p hp⟩) hs
  refine ⟨hp, ?_⟩
  intro a b hab
  have := List.Pairwise.sublist hab hp
  simp at this
  omega

/-- Witness of C8: three logging polls at uptimes 11, 22 and 40 among polls
at 5, 11, 15, 21, 22, 40. -/
theorem log_lines_spaced_witness :
    logUptimes World.boot
        [(5, errReading), (11, errReading), (15, errReading), (21, errReading),
          (22, errReading), (40, errReading)] = [11, 22, 40] ∧
    ((logUptimes World.boot
        [(5, errReading), (11, errReading), (15, errReading), (21, errReading),
          (22, errReading), (40, errReading)]).Pairwise (fun a b => a + 10 < b) ∧
    (∀ a b : Nat, [a, b].Sublist (logUptimes World.boot
        [(5, errReading), (11, errReading), (15, errReading), (21, errReading),
          (22, errReading), (40, errReading)]) → b - a > 10)) :=
  ⟨by decide, log_lines_spaced World.boot _ rfl (by decide) (by decide)⟩

theorem runLoop_cons (w : World) (p : Nat × SHT31D) (rest : List (Nat × SHT31D)) :
    runLoop w (p :: rest) = runLoop (pollStep w p) rest := by
  simp [runLoop]

theorem triggerUptimes_cons (w : World) (p : Nat × SHT31D) (rest : List (Nat × SHT31D)) :
    triggerUptimes w (p :: rest) =
      if triggered w p then p.1 :: triggerUptimes (pollStep w p) rest
      else triggerUptimes (pollStep w p) rest := by
  rw [triggerUptimes]

theorem runLoop_tick (inputs : List (Nat × SHT31D)) :
    ∀ w : World, (∀ p ∈ inputs, w.tick ≤ p.1 ∧ p.1 < UINT_MOD) →
      (inputs.map Prod.fst).Pairwise (fun a b => a ≤ b) →
      (runLoop w inputs).tick = (triggerUptimes w inputs).getLast?.getD w.tick ∧
      (∀ B : Nat, w.tick ≤ B → (∀ q ∈ inputs, q.1 ≤ B) → (runLoop w inputs).tick ≤ B) := by
  induction inputs with
  | nil => intro w _ _; simp [runLoop, triggerUptimes]
  | cons p rest ih =>
    intro w hb hs
    have hp := hb p (List.mem_cons_self _ _)
    rw [List.map_cons, List.pairwise_cons] at hs
    have hstep := pollStep_tick_le w p hp.1 hp.2
    have hb' : ∀ q ∈ rest, (pollStep w p).tick ≤ q.1 ∧ q.1 < UINT_MOD := by
      intro q hq
      have h1 := hs.1 q.1 (List.mem_map_of_mem Prod.fst hq)
      have h2 := hb q (List.mem_cons_of_mem _ hq)
      exact ⟨by omega, h2.2⟩
    have hrest := ih (pollStep w p) hb' hs.2
    rw [runLoop_cons]
    constructor
    · rw [hrest.1, triggerUptimes_cons]
      rcases pollStep_cases w p hp.1 hp.2 with h | h
      · rw [if_pos h.2.2, List.getLast?_cons, h.2.1]
        simp
      · rw [h.2.2.1, h.2.1]
        simp
    · intro B hB hq
      apply hrest.2 B
      · have := hq p (List.mem_cons_self _ _)
        omega
      · intro q hq'
        exact hq q (List.mem_cons_of_mem _ hq')

theorem runLoop_quiet (inputs : List (Nat × SHT31D)) :
    ∀ w : World, w.tick = 0 → (∀ q ∈ inputs, q.1 < 11) →
      triggerUptimes w inputs = [] ∧ runLoop w inputs = w := by
  induction inputs with
  | nil => intro w _ _; simp [runLoop, triggerUptimes]
  | cons p rest ih =>
    intro w h0 hq
    have hp := hq p (List.mem_cons_self _ _)
    have hlt : p.1 < UINT_MOD := by
      unfold UINT_MOD
      omega
    rcases pollStep_cases w p (by omega) hlt with h | h
    · omega
    · have hrest := ih w h0 (fun q hq' => hq q (List.mem_cons_of_mem _ hq'))
      rw [runLoop_cons, triggerUptimes_cons, h.2.2.1, h.2.1]
      simpa using hrest

/-- C10: feeding `loop` a non-decreasing sequence of `unsigned int` uptimes
from `tick = 0`, at the start of every iteration `tick` is at most the
uptime, the `unsigned` subtraction `uptime - tick` is the plain difference,
`tick` is the uptime of the last iteration that fetched (zero when none did),
and while all earlier uptimes are below 11 no iteration has fetched and the
current one fetches exactly when its uptime is at least 11. -/
theorem tick_never_ahead (w : World) (pre post : List (Nat × SHT31D)) (p : Nat × SHT31D)
    (h0 : w.tick = 0) (hu : ∀ q ∈ pre ++ p :: post, q.1 < UINT_MOD)
    (hs : ((pre ++ p :: post).map Prod.fst).Pairwise (fun a b => a ≤ b)) :
    (runLoop w pre).tick ≤ p.1 ∧
    usub p.1 (runLoop w pre).tick = p.1 - (runLoop w pre).tick ∧
    (runLoop w pre).tick = (triggerUptimes w pre).getLast?.getD 0 ∧
    ((∀ q ∈ pre, q.1 < 11) →
      triggerUptimes w pre = [] ∧ (triggered (runLoop w pre) p = true ↔ 11 ≤ p.1)) := by
  have hpu : p.1 < UINT_MOD := hu p (by simp)
  rw [List.map_append, List.pairwise_append] at hs
  have hb : ∀ q ∈ pre, w.tick ≤ q.1 ∧ q.1 < UINT_MOD := fun q hq =>
    ⟨by omega, hu q (List.mem_append_left _ hq)⟩
  have ht := runLoop_tick pre w hb hs.1
  have hle : (runLoop w pre).tick ≤ p.1 := by
    apply ht.2 p.1 (by omega)
    intro q hq
    exact hs.2.2 q.1 (List.mem_map_of_mem Prod.fst hq) p.1 (by simp)
  refine ⟨hle, usub_of_le _ _ hle hpu, ?_, ?_⟩
  · rw [ht.1, h0]
  · intro hq
    have hquiet := runLoop_quiet pre w h0 hq
    refine ⟨hquiet.1, ?_⟩
    rcases pollStep_cases (runLoop w pre) p hle hpu with h | h
    · rw [h.2.2]
      rw [hquiet.2, h0] at h
      simp
      omega
    · rw [h.2.2.1]
      rw [hquiet.2, h0] at h
      simp
      omega

/-- Witness of C10: after polls at 5, 11 and 15 the stored tick is 11, and
the poll at 30 sees an elapsed time of 19. -/
theorem tick_never_ahead_witness :
    (runLoop World.boot [(5, okReading), (11, okReading), (15, okReading)]).tick = 11 ∧
    ((runLoop World.boot [(5, okReading), (11, okReading), (15, okReading)]).tick ≤ 30 ∧
    usub 30 (runLoop World.boot [(5, okReading), (11, okReading), (15, okReading)]).tick
      = 30 - (runLoop World.boot [(5, okReading), (11, okReading), (15, okReading)]).tick ∧
    (runLoop World.boot [(5, okReading), (11, okReading), (15, okReading)]).tick
      = (triggerUptimes World.boot
          [(5, okReading), (11, okReading), (15, okReading)]).getLast?.getD 0 ∧
    ((∀ q ∈ [(5, okReading), (11, okReading), (15, okReading)], q.1 < 11) →
      triggerUptimes World.boot [(5, okReading), (11, okReading), (15, okReading)] = [] ∧
      (triggered (runLoop World.boot [(5, okReading), (11, okReading), (15, okReading)])
        ((30, okReading) : Nat × SHT31D) = true ↔ 11 ≤ 30))) :=
  ⟨by decide,
    tick_never_ahead World.boot [(5, okReading), (11, okReading), (15, okReading)]
      [(31, okReading)] (30, okReading) rfl (by decide) (by decide)⟩

end TrackerEdge
